import Mathlib

/-!
Shallow embedding of `src/src/functions/createRequestState.ts` from the
alova repository: the request-state orchestration core.  Pure fragments of
the TypeScript are translated to Lean functions; JavaScript values that
flow through truthiness checks are modelled by an explicit `JSVal` type;
the host's effect registration is captured as a value describing exactly
which arguments `effectRequest` would receive.  Collaborators that live
outside `src/` (`createHook`, `promiseCatch`, `sloughConfig`) are modelled
from the spec and marked as such in their doc comments.
-/

namespace Alova

/-- A JavaScript value, as far as truthiness and equality are concerned.
Needed because `createRequestState` tests `!cachedResponse`,
`!!forceRequestFinally` and `if (fetching)` with JS truthiness. -/
inductive JSVal where
  | undefined
  | nullv
  | bool (b : Bool)
  | num (n : Int)
  | str (s : String)
  | obj (id : Nat)
deriving DecidableEq, Repr

/-- JS truthiness of a value (`NaN` is not modelled; no claim needs it). -/
def truthy : JSVal → Bool
  | .undefined => false
  | .nullv => false
  | .bool b => b
  | .num n => n != 0
  | .str s => s != ""
  | .obj _ => true

/-- Truthiness of a possibly-absent value: `none` models `undefined`
(i.e. the property is missing or the lookup returned nothing). -/
def truthyOpt : Option JSVal → Bool
  | none => false
  | some v => truthy v

/-- `falseValue` constant from `src/utils/variables`. -/
def falseValue : Bool := false

/-- `trueValue` constant from `src/utils/variables`. -/
def trueValue : Bool := true

/-- JS nullish coalescing `x ?? d`: `none` models a nullish `x`. -/
def nullishCoalesce {α : Type} (x : Option α) (d : α) : α :=
  x.getD d

/-- A configuration field that is either a literal value or a producer
function (`boolean | (() => boolean)` for `force`). -/
inductive SloughValue (α : Type) where
  | value (a : α)
  | producer (f : Unit → α)

/-- Modelled from the spec: `sloughConfig` (imported from `@/utils/helper`,
not under `src/`) resolves a value-or-producer configuration item to its
value, calling the producer when one was supplied instead of a literal. -/
def sloughConfig {α : Type} : SloughValue α → α
  | .value a => a
  | .producer f => f ()

/-- A front state handle: either one freshly created by the host's
`create` primitive for a core slot, or a caller-supplied managed state. -/
inductive Handle where
  | core (slot : String)
  | managed (id : Nat)
deriving DecidableEq, Repr

/-- The hook configuration object, restricted to the fields
`createRequestState` reads.  `tag` stands for all remaining fields and
lets distinct configuration snapshots be told apart. -/
structure Config where
  force : Option (SloughValue JSVal) := none
  managedStates : List (String × Nat) := []
  tag : Nat := 0

/-- The effect bound to an in-flight request on the hook instance
(`hookInstance.ar`): either the initial no-op or an abort that cancels a
specific in-flight request. -/
inductive AbortAction where
  | noop
  | bound (reqId : Nat)
deriving DecidableEq, Repr

/-- The mutable per-orchestration record (the "hook instance").  Handler
functions are represented by opaque numeric ids.  `fs` = front states,
`sh`/`eh`/`ch` = success/error/complete handler lists, `rf`/`sf` =
remove-state and save-state function lists, `c` = configuration snapshot,
`ar` = currently bound abort function. -/
structure HookInstance where
  fs : List (String × Handle)
  sh : List Nat
  eh : List Nat
  ch : List Nat
  rf : List Nat
  sf : List Nat
  c : Config
  ar : AbortAction

/-- Modelled from the spec: `createHook` (imported from `@/createHook`,
not under `src/`) builds a fresh hook instance whose handler and
lifecycle-callback lists are empty and whose abort capability is the
safe no-op required while no request is in flight. -/
def createHook (cfg : Config) : HookInstance :=
  { fs := [], sh := [], eh := [], ch := [], rf := [], sf := [], c := cfg, ar := .noop }

/-- The `debounce` delay configuration: a single scalar delay or a
per-watched-input-index table (`number | number[]`). -/
inductive DebounceDelay where
  | scalar (n : Nat)
  | table (l : List Nat)
deriving DecidableEq, Repr

/-- The delay resolver lambda handed to `debounce` (source lines
124-126): `isNumber(changedIndex) ? (isArray(debounceDelay) ?
debounceDelay[changedIndex] : debounceDelay) : 0`.  The result is an
`Option Nat` because a JS array index out of range yields `undefined`. -/
def delayResolver (debounceDelay : DebounceDelay) (changedIndex : Option Nat) : Option Nat :=
  match changedIndex with
  | some i =>
    match debounceDelay with
    | .table l => l[i]?
    | .scalar n => some n
  | none => some 0

/-- The handler value registered with the host's `effectRequest`:
either the error-suppressing wrapper itself, or the `debounce`-wrapped
version of it carrying the delay resolver built at source line 124. -/
inductive RegisteredHandler where
  | direct
  | debounced (resolver : Option Nat → Option Nat)

/-- Whether a registered handler is the debounced variant. -/
def RegisteredHandler.isDebounced : RegisteredHandler → Bool
  | .direct => false
  | .debounced _ => true

/-- The argument object passed to the host's `effectRequest` primitive
(source lines 119-135). -/
structure EffectParams where
  handler : RegisteredHandler
  frontStates : List (String × Handle)
  watchingStates : Option (List JSVal)
  immediate : Bool

/-- The inputs of one `createRequestState` entry.  `refCell` is the
content of the host's ref cell: `some prev` on a re-entry whose `ref`
preserved the previous hook instance (the React case the source's reset
comment targets), `none` on first entry.  `cachedResponse` is the result
of `getResponseCache(alovaInstance.id, key(...))` for this method's key,
taken as an input because the response cache lives outside `src/`. -/
structure CRSArgs where
  isSSR : Bool
  refCell : Option HookInstance
  useHookConfig : Config
  immediateArg : Option Bool
  watchingStates : Option (List JSVal)
  debounceDelay : DebounceDelay
  cachedResponse : Option JSVal

/-- What one `createRequestState` entry produces, as far as the claims
are concerned: the computed initial loading flag, the merged front state
set, the hook instance after the per-entry reset (lines 112-116), and
the `effectRequest` invocation (or `none` when none is made). -/
structure CRSResult where
  initialLoading : Bool
  frontStates : List (String × Handle)
  hookInstance : HookInstance
  effectCall : Option EffectParams

/-- Shallow embedding of `createRequestState` (source lines 48-136).
Mirrors the source flow: the parameter default `immediate = falseValue`;
the initial-loading computation
`!!sloughConfig(config.force ?? falseValue) || !cachedResponse` under
`if (immediate)`; the front-state merge `{ ...managedStates, data: ...,
loading: ..., error: ..., downloading: ..., uploading: ... }` (later
keys win); the per-entry reset of `fs`/`sh`/`eh`/`ch`/`c`; and, unless
`isSSR`, the `effectRequest` call whose handler is debounced exactly
when `watchingStates !== undefined` and whose `immediate` field is
`immediate ?? trueValue`. -/
def createRequestState (a : CRSArgs) : CRSResult :=
  let immediate : Bool := a.immediateArg.getD falseValue
  let initialLoading : Bool :=
    if immediate then
      truthy (sloughConfig (nullishCoalesce a.useHookConfig.force (.value (.bool falseValue))))
        || !(truthyOpt a.cachedResponse)
    else falseValue
  let hookInstance0 : HookInstance := a.refCell.getD (createHook a.useHookConfig)
  let frontStates : List (String × Handle) :=
    a.useHookConfig.managedStates.map (fun p => (p.1, Handle.managed p.2))
      ++ [("data", .core "data"), ("loading", .core "loading"), ("error", .core "error"),
          ("downloading", .core "downloading"), ("uploading", .core "uploading")]
  let hasWatchingStates : Bool := a.watchingStates.isSome
  let hookInstance : HookInstance :=
    { hookInstance0 with
      fs := frontStates, sh := [], eh := [], ch := [], c := a.useHookConfig }
  let effectCall : Option EffectParams :=
    if !a.isSSR then
      some
        { handler :=
            if hasWatchingStates then .debounced (delayResolver a.debounceDelay) else .direct
          frontStates := frontStates
          watchingStates := a.watchingStates
          immediate := nullishCoalesce (some immediate) trueValue }
    else none
  { initialLoading := initialLoading
    frontStates := frontStates
    hookInstance := hookInstance
    effectCall := effectCall }

/-- Lookup in a JS object literal built from an entry list: the last
entry for a key wins, as with spread-then-override. -/
def objLookup (entries : List (String × Handle)) (k : String) : Option Handle :=
  (entries.reverse.find? (fun p => p.1 == k)).map (fun p => p.2)

/-- The five core slot names created by `createRequestState`. -/
def coreKeys : List String := ["data", "loading", "error", "downloading", "uploading"]

/-- `onSuccess` (source lines 150-152): `pushItem(hookInstance.sh, handler)`. -/
def onSuccess (h : HookInstance) (handler : Nat) : HookInstance :=
  { h with sh := h.sh ++ [handler] }

/-- `onError` (source lines 153-155): `pushItem(hookInstance.eh, handler)`. -/
def onError (h : HookInstance) (handler : Nat) : HookInstance :=
  { h with eh := h.eh ++ [handler] }

/-- `onComplete` (source lines 156-158): `pushItem(hookInstance.ch, handler)`. -/
def onComplete (h : HookInstance) (handler : Nat) : HookInstance :=
  { h with ch := h.ch ++ [handler] }

/-- A partial front-request-state patch as accepted by `update`; `none`
models an absent property. -/
structure StatePatch where
  data : Option JSVal := none
  loading : Option JSVal := none
  error : Option JSVal := none
  downloading : Option JSVal := none
  uploading : Option JSVal := none
  fetching : Option JSVal := none
deriving DecidableEq, Repr

/-- The patch translation performed by `update` (source lines 159-166)
before the patch is handed to the host's update primitive:
`const { fetching } = newStates; if (fetching) { newStates.loading =
fetching; deleteAttr(newStates, fetching-key) }`.  The check is JS
truthiness of the extracted property. -/
def updateTranslate (newStates : StatePatch) : StatePatch :=
  if truthyOpt newStates.fetching then
    { newStates with loading := newStates.fetching, fetching := none }
  else newStates

/-- Outcome of a settled promise: resolved with a value or rejected
with an error (errors carried as strings). -/
inductive POutcome (α : Type) where
  | resolved (a : α)
  | rejected (e : String)
deriving DecidableEq, Repr

/-- Whether a settled promise was rejected. -/
def POutcome.isRejected {α : Type} : POutcome α → Bool
  | .resolved _ => false
  | .rejected _ => true

/-- Modelled from the spec: `promiseCatch` (from `src/utils/variables`,
not under `src/`) is `promise.catch(onrejected)` — a rejection is
replaced by the handler's result, a resolution passes through. -/
def promiseCatch {α : Type} (p : POutcome α) (onrejected : String → α) : POutcome α :=
  match p with
  | .resolved a => .resolved a
  | .rejected e => .resolved (onrejected e)

/-- `noop` from `@/utils/helper`: does nothing, yields `undefined`. -/
def noop (_ : String) : JSVal := .undefined

/-- `wrapEffectRequest` (source lines 107-109), applied to the outcome of
the underlying `handleRequest()` attempt:
`promiseCatch(handleRequest(), noop)`. -/
def wrapEffectRequest (attempt : POutcome JSVal) : POutcome JSVal :=
  promiseCatch attempt noop

/-- `send` (source lines 177-179) returns `handleRequest(...)`'s promise
unchanged, so the caller observes the attempt's own outcome. -/
def send (attempt : POutcome JSVal) : POutcome JSVal :=
  attempt

/-- `abort` (source line 168): `() => hookInstance.ar()` — invoke the
abort function currently bound on the hook instance. -/
def abort (h : HookInstance) : AbortAction :=
  h.ar

/-- The observable effect of running an abort action: `some reqId` when
an in-flight request is cancelled, `none` when nothing happens. -/
def runAbort : AbortAction → Option Nat
  | .noop => none
  | .bound reqId => some reqId

/-- A concrete re-entry input: the host ref preserved the previous hook
instance, which still carries a remove-state callback (id 7) and a
save-state callback (id 9) registered during the previous entry. -/
def reentryWithLifecycleCallbacks : CRSArgs :=
  { isSSR := false
    refCell := some
      { fs := [], sh := [5], eh := [], ch := [], rf := [7], sf := [9], c := {}, ar := .noop }
    useHookConfig := { tag := 1 }
    immediateArg := some false
    watchingStates := none
    debounceDelay := .scalar 0
    cachedResponse := none }

end Alova

open Alova

/-! Equation lemmas: facets of `createRequestState` read off the
embedding definitionally, shared by the claim theorems below. -/

/-- The initial-loading facet of `createRequestState` (source lines
69-80): under the parameter default `immediate = falseValue`, an
immediate entry computes `!!force || !cachedResponse`, any other entry
keeps `falseValue`. -/
theorem createRequestState_initialLoading (a : CRSArgs) :
    (createRequestState a).initialLoading =
      if a.immediateArg.getD falseValue then
        truthy (sloughConfig (nullishCoalesce a.useHookConfig.force (.value (.bool falseValue))))
          || !truthyOpt a.cachedResponse
      else falseValue := rfl

/-- The front-state facet of `createRequestState` (source lines 89-96):
managed states spread first, the five core handles written after. -/
theorem createRequestState_frontStates (a : CRSArgs) :
    (createRequestState a).frontStates =
      a.useHookConfig.managedStates.map (fun p => (p.1, Handle.managed p.2))
        ++ [("data", .core "data"), ("loading", .core "loading"), ("error", .core "error"),
            ("downloading", .core "downloading"), ("uploading", .core "uploading")] := rfl

/-- C1 is refuted at this input: an immediate entry with no force flag
whose cache lookup returns the present falsy value 0.  The code computes
initial loading = true, while the force flag resolves falsy and the
lookup is not absent, so the equation the claim states gives false. -/
theorem C1_counterexample :
    (createRequestState
      { isSSR := false, refCell := none, useHookConfig := {},
        immediateArg := some true, watchingStates := none, debounceDelay := .scalar 0,
        cachedResponse := some (.num 0) }).initialLoading = true ∧
    (some (JSVal.num 0) : Option JSVal).isNone = false ∧
    truthy (sloughConfig (nullishCoalesce (none : Option (SloughValue JSVal))
      (.value (.bool falseValue)))) = false :=
  ⟨rfl, rfl, rfl⟩

/-- C1 (amended): for every entry configured to fire immediately, the
initial loading flag equals (force flag truthy) OR (the cache lookup
result is absent or falsy — the code tests JS truthiness of the lookup
result, not mere presence); for every entry not firing immediately the
flag is false; and with force = true it is true regardless of cache
state. -/
theorem C1_theorem (a : CRSArgs) :
    (a.immediateArg = some true →
      (createRequestState a).initialLoading =
        (truthy (sloughConfig (nullishCoalesce a.useHookConfig.force (.value (.bool falseValue))))
          || !truthyOpt a.cachedResponse)) ∧
    (a.immediateArg ≠ some true → (createRequestState a).initialLoading = false) ∧
    (a.immediateArg = some true → a.useHookConfig.force = some (.value (.bool true)) →
      (createRequestState a).initialLoading = true) := by
  refine ⟨fun hImm => ?_, fun hImm => ?_, fun hImm hForce => ?_⟩
  · rw [createRequestState_initialLoading, hImm]
    rfl
  · rw [createRequestState_initialLoading]
    cases hB : a.immediateArg with
    | none => rfl
    | some b =>
      cases b with
      | false => rfl
      | true => exact absurd hB hImm
  · rw [createRequestState_initialLoading, hImm, hForce]
    rfl

/-- C1 instantiated: force = true with a present, truthy cache entry
still gives initial loading = true. -/
theorem C1_witness :
    (createRequestState
      { isSSR := false, refCell := none,
        useHookConfig := { force := some (.value (.bool true)) }, immediateArg := some true,
        watchingStates := none, debounceDelay := .scalar 0,
        cachedResponse := some (.obj 1) }).initialLoading = true :=
  (C1_theorem _).2.2 rfl rfl

/-- C2 is refuted at this input: the immediate flag is left unspecified
and an effect is registered, yet the effect carries immediate = false,
not true. -/
theorem C2_counterexample :
    (createRequestState
      { isSSR := false, refCell := none, useHookConfig := {},
        immediateArg := none, watchingStates := none, debounceDelay := .scalar 0,
        cachedResponse := none }).effectCall.map EffectParams.immediate ≠ some true ∧
    (createRequestState
      { isSSR := false, refCell := none, useHookConfig := {},
        immediateArg := none, watchingStates := none, debounceDelay := .scalar 0,
        cachedResponse := none }).effectCall.map EffectParams.immediate = some false :=
  ⟨by decide, rfl⟩

/-- C2 (amended): for every entry whose immediate flag is left
unspecified, the effect registered with the host carries
immediate = false: the parameter default falseValue applies before the
effect payload is built, so the nullish fallback to true there can
never fire. -/
theorem C2_theorem (rc : Option HookInstance) (cfg : Config)
    (ws : Option (List JSVal)) (dd : DebounceDelay) (cache : Option JSVal) :
    (createRequestState
      { isSSR := false, refCell := rc, useHookConfig := cfg,
        immediateArg := none, watchingStates := ws, debounceDelay := dd,
        cachedResponse := cache }).effectCall.map EffectParams.immediate = some false := rfl

/-- C3 is refuted at this re-entry input: the remove- and save-state
lists are not replaced with empty lists — the previous entry's
callbacks (ids 7 and 9) survive the per-entry reset. -/
theorem C3_counterexample :
    (createRequestState reentryWithLifecycleCallbacks).hookInstance.rf = [7] ∧
    (createRequestState reentryWithLifecycleCallbacks).hookInstance.sf = [9] ∧
    ([7] : List Nat) ≠ [] ∧ ([9] : List Nat) ≠ [] :=
  ⟨rfl, rfl, by decide, by decide⟩

/-- C3 (amended): on every orchestration entry the success, error and
completion handler lists are replaced with empty lists, and the active
front-state set and configuration snapshot are rebound to the current
call's values, in the hook instance visible to the effect-scheduling
step; any registration performed after entry observes only the fresh
lists.  The remove- and save-state lifecycle lists, however, are not
reset: they carry over from the ref-preserved previous instance. -/
theorem C3_theorem (a : CRSArgs) :
    (createRequestState a).hookInstance.sh = [] ∧
    (createRequestState a).hookInstance.eh = [] ∧
    (createRequestState a).hookInstance.ch = [] ∧
    (createRequestState a).hookInstance.fs = (createRequestState a).frontStates ∧
    (createRequestState a).hookInstance.c = a.useHookConfig ∧
    (createRequestState a).effectCall.map EffectParams.frontStates =
      (if a.isSSR then none else some (createRequestState a).frontStates) ∧
    (createRequestState a).hookInstance.rf = (a.refCell.getD (createHook a.useHookConfig)).rf ∧
    (createRequestState a).hookInstance.sf = (a.refCell.getD (createHook a.useHookConfig)).sf ∧
    (∀ x, (onSuccess (createRequestState a).hookInstance x).sh = [x]) ∧
    (∀ x, (onError (createRequestState a).hookInstance x).eh = [x]) ∧
    (∀ x, (onComplete (createRequestState a).hookInstance x).ch = [x]) := by
  obtain ⟨ssr, rc, cfg, imm, ws, dd, cache⟩ := a
  cases ssr <;>
    exact ⟨rfl, rfl, rfl, rfl, rfl, rfl, rfl, rfl, fun _ => rfl, fun _ => rfl, fun _ => rfl⟩

/-- C4 is refuted at fetching = false: a falsy fetching flag passes
through the translation unchanged — the fetching key is kept and
loading is not set — so the patch the host receives differs from the
one a loading = false patch produces. -/
theorem C4_counterexample :
    updateTranslate { fetching := some (.bool false) } ≠
      updateTranslate { loading := some (.bool false) } ∧
    updateTranslate { fetching := some (.bool false) } = { fetching := some (.bool false) } :=
  ⟨by decide, rfl⟩

/-- C4 (amended): a patch whose fetching flag is truthy has the flag
translated into the primary loading flag and removed before merging, so
for truthy values the fetching and loading variants hand the host
identical patches; a falsy fetching flag is neither translated nor
removed. -/
theorem C4_theorem (f : JSVal) (h : truthy f = true) :
    updateTranslate { fetching := some f } = updateTranslate { loading := some f } ∧
    updateTranslate { fetching := some f } = { loading := some f } := by
  constructor <;> simp [updateTranslate, truthyOpt, h]

/-- C4 instantiated at fetching = true. -/
theorem C4_witness :
    updateTranslate { fetching := some (.bool true) } = { loading := some (.bool true) } :=
  (C4_theorem (.bool true) rfl).2

/-- C5: with no watched inputs the registered effect handler is the
error-suppressing send-once wrapper itself; with watched inputs
supplied (any list, the empty one included) it is the debounce wrapper
around that wrapper, carrying the per-index delay resolver. -/
theorem C5_theorem (rc : Option HookInstance) (cfg : Config) (imm : Option Bool)
    (dd : DebounceDelay) (cache : Option JSVal) :
    ((createRequestState
      { isSSR := false, refCell := rc, useHookConfig := cfg,
        immediateArg := imm, watchingStates := none, debounceDelay := dd,
        cachedResponse := cache }).effectCall.map EffectParams.handler = some .direct) ∧
    (∀ ws : List JSVal,
      (createRequestState
        { isSSR := false, refCell := rc, useHookConfig := cfg,
          immediateArg := imm, watchingStates := some ws, debounceDelay := dd,
          cachedResponse := cache }).effectCall.map EffectParams.handler =
        some (.debounced (delayResolver dd))) :=
  ⟨rfl, fun _ => rfl⟩

/-- C6: the delay resolver handed to the debounce scheduler yields 0
for a trigger carrying no changed index; for a trigger with changed
index i it yields the i-th entry of a per-index delay table, and the
single scalar delay uniformly for every index otherwise. -/
theorem C6_theorem :
    (∀ d : DebounceDelay, delayResolver d none = some 0) ∧
    (∀ (l : List Nat) (i : Nat) (h : i < l.length),
      delayResolver (.table l) (some i) = some l[i]) ∧
    (∀ n i : Nat, delayResolver (.scalar n) (some i) = some n) := by
  refine ⟨fun d => rfl, fun l i h => ?_, fun n i => rfl⟩
  simp [delayResolver, List.getElem?_eq_getElem h]

/-- C6 instantiated: a per-index table and changed index 1. -/
theorem C6_witness : delayResolver (.table [3, 4]) (some 1) = some 4 := by
  have h := C6_theorem.2.1 [3, 4] 1 (by decide)
  exact h

/-- C7: the error-suppressing effect wrapper never yields a rejected
outcome, whatever the underlying attempt does, while a direct send call
returns the attempt's outcome unchanged — so a failing attempt sent
directly still rejects. -/
theorem C7_theorem (attempt : POutcome JSVal) (e : String) :
    (wrapEffectRequest attempt).isRejected = false ∧
    send attempt = attempt ∧
    (send (POutcome.rejected e)).isRejected = true := by
  refine ⟨?_, rfl, rfl⟩
  cases attempt <;> rfl

/-- C8: in a server-side-rendering context no effectRequest call is
made, so no effect handler is registered with the host and no request
is issued from the effect path. -/
theorem C8_theorem (rc : Option HookInstance) (cfg : Config) (imm : Option Bool)
    (ws : Option (List JSVal)) (dd : DebounceDelay) (cache : Option JSVal) :
    (createRequestState
      { isSSR := true, refCell := rc, useHookConfig := cfg,
        immediateArg := imm, watchingStates := ws, debounceDelay := dd,
        cachedResponse := cache }).effectCall = none := rfl

/-- C9: abort() invokes exactly the abort action currently bound on the
active hook instance, and on a fresh instance — no request in flight —
that action is the no-op, which cancels nothing and raises no error.
The initial binding comes from createHook, modelled from the spec. -/
theorem C9_theorem (hi : HookInstance) (cfg : Config) :
    abort hi = hi.ar ∧ runAbort (abort (createHook cfg)) = none :=
  ⟨rfl, rfl⟩

/-- C10: the merged front-state set always resolves the five core slot
names to the freshly created core handles — a managed state supplied
under one of those names is shadowed and never exposed — while managed
states under any other name resolve exactly as in the caller-supplied
collection. -/
theorem C10_theorem (a : CRSArgs) (k : String) :
    (k ∈ coreKeys →
      objLookup (createRequestState a).frontStates k = some (.core k)) ∧
    (k ∉ coreKeys →
      objLookup (createRequestState a).frontStates k =
        objLookup (a.useHookConfig.managedStates.map (fun p => (p.1, Handle.managed p.2))) k) := by
  constructor
  · intro hk
    have hk5 : k = "data" ∨ k = "loading" ∨ k = "error" ∨ k = "downloading" ∨ k = "uploading" := by
      simpa [coreKeys] using hk
    rw [createRequestState_frontStates]
    unfold objLookup
    rw [List.reverse_append]
    rcases hk5 with rfl | rfl | rfl | rfl | rfl <;> rfl
  · intro hk
    have hk5 : ¬k = "data" ∧ ¬k = "loading" ∧ ¬k = "error" ∧ ¬k = "downloading" ∧ ¬k = "uploading" := by
      simp [coreKeys] at hk
      tauto
    obtain ⟨h1, h2, h3, h4, h5⟩ := hk5
    have e1 : (("data" : String) == k) = false := beq_eq_false_iff_ne.mpr fun h => h1 h.symm
    have e2 : (("loading" : String) == k) = false := beq_eq_false_iff_ne.mpr fun h => h2 h.symm
    have e3 : (("error" : String) == k) = false := beq_eq_false_iff_ne.mpr fun h => h3 h.symm
    have e4 : (("downloading" : String) == k) = false := beq_eq_false_iff_ne.mpr fun h => h4 h.symm
    have e5 : (("uploading" : String) == k) = false := beq_eq_false_iff_ne.mpr fun h => h5 h.symm
    rw [createRequestState_frontStates]
    unfold objLookup
    rw [List.reverse_append, List.find?_append]
    simp [List.find?_cons, e1, e2, e3, e4, e5]

/-- C10 instantiated: a managed state supplied under the core name
loading is shadowed by the core-created loading handle. -/
theorem C10_witness :
    objLookup (createRequestState
      { isSSR := false, refCell := none,
        useHookConfig := { managedStates := [("loading", 42), ("extra", 7)] },
        immediateArg := none, watchingStates := none, debounceDelay := .scalar 0,
        cachedResponse := none }).frontStates "loading" = some (.core "loading") :=
  (C10_theorem _ "loading").1 (by decide)
